import Mathlib

/-!
Verification development for the GiwBridge IPC layer of gdb-imagewatch
(src/giwbridge/giw_bridge.cpp): a shallow embedding of the message
protocol client — the inbox that buffers at most one decoded message per
kind, the read-and-dispatch pass over the socket byte stream, the event
loop tick that drains plot requests, and the synchronous
request/response path — together with theorems about their behaviour.

Modelling conventions:
- The bytes delivered by the peer are modelled as `List Nat` (one entry
  per byte).  A read-and-dispatch pass (`try_read_incoming_messages`)
  receives the full list of bytes that become available during its wait
  windows; an empty list models a wait that times out with no readable
  bytes, which is exactly the condition under which the C++ do-while
  breaks on its first iteration.
- For the synchronous path, the connection is a `List (List Nat)` of
  arrival chunks: chunk boundaries are wait windows that time out with
  nothing buffered (which end a pass), so consecutive chunks are the
  byte batches that successive read passes would consume.  A finished
  list models the peer closing the connection.
- The wire format of `ipc/message_exchange.h` (MessageType tag values,
  MessageComposer, MessageDecoder) is not part of this repository
  snapshot; those definitions are modelled from the spec and are marked
  as such below.
-/

/-- The closed set of message kinds exchanged between the host bridge
and the GUI companion (enum MessageType of ipc/message_exchange.h; the
four kinds are those named by the spec and matched on by
`try_read_incoming_messages`). -/
inductive MessageType where
  | GetObservedSymbols
  | GetObservedSymbolsResponse
  | SetAvailableSymbols
  | PlotBufferRequest
deriving DecidableEq, Repr

/-- Modelled from the spec: the concrete numeric values of the
MessageType enum live in ipc/message_exchange.h, which is missing from
the snapshot; the spec only requires a fixed-width enumerated tag, so
representative values 0..3 are assigned.  No theorem below depends on
the particular values, only on the recognized/unrecognized distinction. -/
def MessageType.toTag : MessageType → Nat
  | .GetObservedSymbols => 0
  | .GetObservedSymbolsResponse => 1
  | .SetAvailableSymbols => 2
  | .PlotBufferRequest => 3

/-- Modelled from the spec: inverse of the tag assignment; a value
outside the enumerated set decodes to `none` (the switch default of
`try_read_incoming_messages`). -/
def tagToMessageType (n : Nat) : Option MessageType :=
  if n = 0 then some MessageType.GetObservedSymbols
  else if n = 1 then some MessageType.GetObservedSymbolsResponse
  else if n = 2 then some MessageType.SetAvailableSymbols
  else if n = 3 then some MessageType.PlotBufferRequest
  else none

/-- Decoded inbound messages (struct UiMessage and its two concrete
subclasses GetObservedSymbolsResponseMessage / PlotBufferRequestMessage
in giw_bridge.cpp). -/
inductive UiMessage where
  | getObservedSymbolsResponse (observed_symbols : List String)
  | plotBufferRequest (buffer_name : String)
deriving DecidableEq, Repr

/-- Buffer names carried by a message, as extracted by the event loop.
For a `plotBufferRequest` this is the one buffer name; for any other
message the C++ `dynamic_cast<PlotBufferRequestMessage*>` would yield
null (and the subsequent dereference would crash) — such a message is
never stored under the PlotBufferRequest key by the read pass, so the
branch is unreachable and modelled as the empty list. -/
def UiMessage.plotNames : UiMessage → List String
  | .plotBufferRequest name => [name]
  | _ => []

/-- The inbox `received_messages_ : std::map<MessageType, unique_ptr<UiMessage>>`:
at most one buffered decoded message per kind.  Since the key type is the
four-valued enum, the map is one optional slot per kind. -/
structure Inbox where
  getObservedSymbols : Option UiMessage
  getObservedSymbolsResponse : Option UiMessage
  setAvailableSymbols : Option UiMessage
  plotBufferRequest : Option UiMessage
deriving DecidableEq, Repr

/-- The empty inbox (the freshly constructed map). -/
def Inbox.empty : Inbox := ⟨none, none, none, none⟩

/-- Lookup of the slot for a kind (`received_messages_.find(k)`). -/
def Inbox.get (ib : Inbox) : MessageType → Option UiMessage
  | .GetObservedSymbols => ib.getObservedSymbols
  | .GetObservedSymbolsResponse => ib.getObservedSymbolsResponse
  | .SetAvailableSymbols => ib.setAvailableSymbols
  | .PlotBufferRequest => ib.plotBufferRequest

/-- Writing a slot for a kind (insertion, overwrite, or erasure of the
map entry, depending on the value written). -/
def Inbox.set (ib : Inbox) (k : MessageType) (v : Option UiMessage) : Inbox :=
  match k with
  | .GetObservedSymbols => { ib with getObservedSymbols := v }
  | .GetObservedSymbolsResponse => { ib with getObservedSymbolsResponse := v }
  | .SetAvailableSymbols => { ib with setAvailableSymbols := v }
  | .PlotBufferRequest => { ib with plotBufferRequest := v }

/-- Map assignment received_messages_[k] = m: unconditionally set the buffered entry
for kind `k`, discarding any previous unclaimed entry of that kind
(std::map operator[] followed by assignment). -/
def Inbox.store (ib : Inbox) (k : MessageType) (m : UiMessage) : Inbox :=
  ib.set k (some m)

/-- GiwBridge::try_get_stored_message: remove and return the buffered
entry for the kind if present (find, move out, erase), else return
absent with the inbox untouched. -/
def try_get_stored_message (ib : Inbox) (k : MessageType) : Option UiMessage × Inbox :=
  match ib.get k with
  | some m => (some m, ib.set k none)
  | none => (none, ib)

/-- Modelled from the spec: read a fixed-width unsigned integer (4-byte,
little-endian host order, as `client_->read` into a word-sized header
would produce) from the front of the byte list; fails on a short read. -/
def readUint32 : List Nat → Option (Nat × List Nat)
  | b0 :: b1 :: b2 :: b3 :: rest =>
      some (b0 + 256 * b1 + 65536 * b2 + 16777216 * b3, rest)
  | _ => none

/-- Modelled from the spec: consume exactly `n` raw bytes as characters;
fails if fewer than `n` bytes are available. -/
def readChars : Nat → List Nat → Option (List Char × List Nat)
  | 0, bs => some ([], bs)
  | _ + 1, [] => none
  | n + 1, b :: bs =>
      match readChars n bs with
      | some (cs, rest) => some (Char.ofNat b :: cs, rest)
      | none => none

/-- Modelled from the spec: MessageDecoder::receive_string — a length
prefix (fixed-width unsigned integer) followed by that many raw bytes;
a short read is reported as failure rather than silently padded. -/
def receive_string (bs : List Nat) : Option (String × List Nat) :=
  match readUint32 bs with
  | some (len, rest) =>
      match readChars len rest with
      | some (cs, rest2) => some (String.mk cs, rest2)
      | none => none
  | none => none

/-- Modelled from the spec: decode `n` consecutive encoded strings. -/
def receive_strings : Nat → List Nat → Option (List String × List Nat)
  | 0, bs => some ([], bs)
  | n + 1, bs =>
      match receive_string bs with
      | some (s, rest) =>
          match receive_strings n rest with
          | some (ss, rest2) => some (s :: ss, rest2)
          | none => none
      | none => none

/-- Modelled from the spec: MessageDecoder::receive_symbol_list — a
count prefix followed by that many encoded strings in sequence order. -/
def receive_symbol_list (bs : List Nat) : Option (List String × List Nat) :=
  match readUint32 bs with
  | some (n, rest) => receive_strings n rest
  | none => none

/-- Modelled from the spec: encode a fixed-width unsigned integer as its
four little-endian bytes. -/
def encodeUint32 (n : Nat) : List Nat :=
  [n % 256, n / 256 % 256, n / 65536 % 256, n / 16777216 % 256]

/-- Modelled from the spec: MessageComposer encoding of a string —
length prefix then raw bytes. -/
def encodeString (s : String) : List Nat :=
  encodeUint32 s.length ++ s.data.map Char.toNat

/-- Modelled from the spec: encoding of a sequence of strings — count
prefix then the encoded strings in order. -/
def encodeStringSeq (ss : List String) : List Nat :=
  encodeUint32 ss.length ++ ss.flatMap encodeString

/-- A complete PlotBufferRequest frame as the GUI peer sends it: the
kind tag followed by the buffer-name string payload. -/
def encodePlotFrame (name : String) : List Nat :=
  encodeUint32 MessageType.PlotBufferRequest.toTag ++ encodeString name

/-- A complete GetObservedSymbolsResponse frame as the GUI peer sends
it: the kind tag followed by the symbol-list payload. -/
def encodeResponseFrame (ss : List String) : List Nat :=
  encodeUint32 MessageType.GetObservedSymbolsResponse.toTag ++ encodeStringSeq ss

/-- One iteration structure of GiwBridge::try_read_incoming_messages,
fuel-indexed for structural recursion (each iteration consumes at least
the four header bytes, so fuel equal to the byte count is always enough;
see `readLoop_fuel_irrelevant`).  An iteration mirrors the C++ do-while
body: if no bytes are available the pass breaks; otherwise it reads one
kind tag, decodes the corresponding payload and stores the message in
the inbox (overwriting any unclaimed entry of that kind), logs and drops
an unrecognized tag (consuming only the tag bytes), and continues while
bytes remain.  A payload whose bytes never fully arrive ends the pass
without storing anything (the decoder reports the short read; nothing
is buffered). -/
def readLoop : Nat → List Nat → Inbox → Inbox
  | 0, _, ib => ib
  | fuel + 1, bs, ib =>
    match readUint32 bs with
    | none => ib
    | some (tag, rest) =>
      match tagToMessageType tag with
      | some MessageType.PlotBufferRequest =>
        match receive_string rest with
        | some (name, rest2) =>
            readLoop fuel rest2
              (ib.store MessageType.PlotBufferRequest (UiMessage.plotBufferRequest name))
        | none => ib
      | some MessageType.GetObservedSymbolsResponse =>
        match receive_symbol_list rest with
        | some (syms, rest2) =>
            readLoop fuel rest2
              (ib.store MessageType.GetObservedSymbolsResponse
                (UiMessage.getObservedSymbolsResponse syms))
        | none => ib
      | _ => readLoop fuel rest ib

/-- GiwBridge::try_read_incoming_messages: one read-and-dispatch pass
over the bytes that become available during the pass.  An empty byte
list models the wait timing out with no readable bytes (the C++ loop
then breaks on its first iteration with no side effects). -/
def try_read_incoming_messages (bs : List Nat) (ib : Inbox) : Inbox :=
  readLoop bs.length bs ib

/-- The while-loop of GiwBridge::run_event_loop, fuel-indexed: take the
stored PlotBufferRequest message from the inbox, invoke the plot
callback on the carried buffer name, and repeat until the take returns
absent.  Because `try_get_stored_message` erases the single slot it
reads, the loop performs at most two takes; fuel 2 computes the full
execution (`drainLoop_fuel_irrelevant` below).  The returned list is
the sequence of buffer names passed to the plot callback, in call
order. -/
def drainLoop : Nat → Inbox → Inbox × List String
  | 0, ib => (ib, [])
  | fuel + 1, ib =>
    match try_get_stored_message ib MessageType.PlotBufferRequest with
    | (some m, ib2) =>
        let r := drainLoop fuel ib2
        (r.1, m.plotNames ++ r.2)
    | (none, ib2) => (ib2, [])

/-- GiwBridge::run_event_loop: one tick — a single bounded
read-and-dispatch pass over the available bytes, then drain the stored
PlotBufferRequest entry, invoking the plot callback once per take.
Returns the final inbox and the buffer names the callback was invoked
with, in order. -/
def run_event_loop (bs : List Nat) (ib : Inbox) : Inbox × List String :=
  drainLoop 2 (try_read_incoming_messages bs ib)

/-- GiwBridge::fetch_message: return the message of the requested kind
if it was already buffered; otherwise perform exactly one
read-and-dispatch pass and check the inbox again.  `bs` is the byte
batch available to that single pass. -/
def fetch_message (k : MessageType) (bs : List Nat) (ib : Inbox) :
    Option UiMessage × Inbox :=
  match try_get_stored_message ib k with
  | (some m, ib2) => (some m, ib2)
  | (none, ib2) => try_get_stored_message (try_read_incoming_messages bs ib2) k

/-- GiwBridge::get_observed_symbols over a connection modelled as a list
of arrival chunks (successive read passes consume successive chunks; an
exhausted list is a closed connection).  The call sends one
GetObservedSymbols request (returned as the third component), then
fetches a GetObservedSymbolsResponse with a single additional read pass
over the head chunk; later chunks are never consulted.  If no response
message is obtained the call returns the empty sequence.  A message of
the wrong shape under the response key would be misread by the C++
static_cast; the read pass never stores one there, so that branch is
unreachable and also returns the empty sequence. -/
def get_observed_symbols (chunks : List (List Nat)) (ib : Inbox) :
    List String × Inbox × List Nat :=
  match fetch_message MessageType.GetObservedSymbolsResponse (chunks.headD []) ib with
  | (some (UiMessage.getObservedSymbolsResponse syms), ib2) =>
      (syms, ib2, encodeUint32 MessageType.GetObservedSymbols.toTag)
  | (some _, ib2) => ([], ib2, encodeUint32 MessageType.GetObservedSymbols.toTag)
  | (none, ib2) => ([], ib2, encodeUint32 MessageType.GetObservedSymbols.toTag)

/-- The bounded wait for the one expected client connection
(server_.waitForNewConnection(10000) in GiwBridge::wait_for_client). -/
def wait_for_client_timeout_ms : Nat := 10000

/-- GiwBridge::wait_for_client: if no client is connected yet, wait up
to the bounded timeout, then take the next pending connection — which
is absent when no client connected within the wait (the C++ then
assigns nullptr).  `pending` is the connection available when the wait
ends. -/
def wait_for_client (client : Option Nat) (pending : Option Nat) : Option Nat :=
  match client with
  | none => pending
  | some c => some c

/-- GiwBridge::start: bind the listening endpoint (failure returns
false immediately), spawn the companion process (external collaborator),
wait for the one client connection, and report success exactly when a
client connection was established.  `listenOk` is the outcome of
server_.listen; `pending` the connection available when the bounded
wait ends.  Returns the reported boolean and the resulting client. -/
def GiwBridge.start (listenOk : Bool) (pending : Option Nat) : Bool × Option Nat :=
  if listenOk then
    let client := wait_for_client none pending
    (client.isSome, client)
  else
    (false, none)

/-- GiwBridge::is_window_ready: a client is connected, the companion
process has a nonzero OS-level identifier, and the no-op signal probe
(kill with signal 0) on that identifier succeeds.  `killOk pid` models
the probe outcome for identifier `pid`. -/
def is_window_ready (client : Option Nat) (processId : Nat) (killOk : Nat → Bool) : Bool :=
  client.isSome && processId != 0 && killOk processId

theorem Inbox.get_set (ib : Inbox) (k k' : MessageType) (v : Option UiMessage) :
    (ib.set k v).get k' = if k' = k then v else ib.get k' := by
  cases k <;> cases k' <;> simp [Inbox.set, Inbox.get]

theorem Inbox.set_set (ib : Inbox) (k : MessageType) (v w : Option UiMessage) :
    (ib.set k v).set k w = ib.set k w := by
  cases k <;> rfl

theorem Inbox.get_store (ib : Inbox) (k : MessageType) (m : UiMessage) :
    (ib.store k m).get k = some m := by
  cases k <;> rfl

/-- C5: storing a second message for the same kind with no intervening
take overwrites the first: the double store collapses to the second
store, a subsequent take returns the second message only, and the slot
is then empty — the first message is never delivered. -/
theorem inbox_store_overwrite (ib : Inbox) (k : MessageType) (m1 m2 : UiMessage) :
    ((ib.store k m1).store k m2 = ib.store k m2) ∧
    ((try_get_stored_message ((ib.store k m1).store k m2) k).1 = some m2) ∧
    (((try_get_stored_message ((ib.store k m1).store k m2) k).2).get k = none) := by
  refine ⟨Inbox.set_set ib k (some m1) (some m2), ?_, ?_⟩ <;>
    cases k <;> simp [try_get_stored_message, Inbox.store, Inbox.set, Inbox.get]

/-- C6: after storing a message for a kind with no intervening store,
the first take returns exactly that message and erases the slot, a
second take returns absent, and taking from an inbox with no entry for
the kind returns absent with the inbox unchanged (absence is not an
error). -/
theorem inbox_take_once (ib : Inbox) (k : MessageType) (m : UiMessage) :
    (try_get_stored_message (ib.store k m) k = (some m, ib.set k none)) ∧
    ((try_get_stored_message ((try_get_stored_message (ib.store k m) k).2) k).1 = none) ∧
    (ib.get k = none → try_get_stored_message ib k = (none, ib)) := by
  refine ⟨?_, ?_, ?_⟩
  · cases k <;> simp [try_get_stored_message, Inbox.store, Inbox.set, Inbox.get]
  · cases k <;> simp [try_get_stored_message, Inbox.store, Inbox.set, Inbox.get]
  · intro h
    simp [try_get_stored_message, h]

/-- C6 witness: taking from the empty inbox returns absent and leaves
the inbox unchanged. -/
theorem inbox_take_once_witness :
    Inbox.empty.get MessageType.PlotBufferRequest = none ∧
    try_get_stored_message Inbox.empty MessageType.PlotBufferRequest =
      (none, Inbox.empty) :=
  ⟨rfl, (inbox_take_once Inbox.empty MessageType.PlotBufferRequest
      (UiMessage.plotBufferRequest "b")).2.2 rfl⟩

/-- C10: a take for kind `k` affects only the slot for `k`; every other
kind's buffered entry is exactly what it was before the call, whether
the take returned a message or absent. -/
theorem take_frame_other_kinds (ib : Inbox) (k k' : MessageType) (h : k' ≠ k) :
    ((try_get_stored_message ib k).2).get k' = ib.get k' := by
  unfold try_get_stored_message
  cases hk : ib.get k with
  | none => rfl
  | some m => simp [Inbox.get_set, h]

/-- C10 witness: taking the stored plot request leaves the buffered
response entry untouched. -/
theorem take_frame_other_kinds_witness :
    (MessageType.GetObservedSymbolsResponse ≠ MessageType.PlotBufferRequest) ∧
    ((try_get_stored_message
        ((Inbox.empty.store MessageType.PlotBufferRequest
            (UiMessage.plotBufferRequest "b")).store
          MessageType.GetObservedSymbolsResponse
          (UiMessage.getObservedSymbolsResponse ["x"]))
        MessageType.PlotBufferRequest).2).get MessageType.GetObservedSymbolsResponse =
      ((Inbox.empty.store MessageType.PlotBufferRequest
          (UiMessage.plotBufferRequest "b")).store
        MessageType.GetObservedSymbolsResponse
        (UiMessage.getObservedSymbolsResponse ["x"])).get
        MessageType.GetObservedSymbolsResponse :=
  ⟨by decide, take_frame_other_kinds _ MessageType.PlotBufferRequest
      MessageType.GetObservedSymbolsResponse (by decide)⟩

/-- C9: a read-and-dispatch pass that times out with no readable bytes
available returns with no side effects — the inbox is exactly as it was
and no message is stored or consumed. -/
theorem read_pass_no_bytes_no_effect (ib : Inbox) :
    try_read_incoming_messages [] ib = ib :=
  rfl

theorem readLoop_nil (f : Nat) (ib : Inbox) : readLoop f [] ib = ib := by
  cases f <;> rfl


theorem readUint32_length {bs : List Nat} {t : Nat} {rest : List Nat}
    (h : readUint32 bs = some (t, rest)) : bs.length = rest.length + 4 := by
  unfold readUint32 at h
  split at h
  · rename_i b0 b1 b2 b3 r
    simp only [Option.some.injEq, Prod.mk.injEq] at h
    obtain ⟨-, rfl⟩ := h
    simp
  · exact absurd h (by simp)

theorem readChars_length :
    ∀ (n : Nat) (bs : List Nat) (cs : List Char) (rest : List Nat),
      readChars n bs = some (cs, rest) → bs.length = rest.length + n := by
  intro n
  induction n with
  | zero =>
    intro bs cs rest h
    simp only [readChars, Option.some.injEq, Prod.mk.injEq] at h
    obtain ⟨-, rfl⟩ := h
    rfl
  | succ n ih =>
    intro bs cs rest h
    cases bs with
    | nil => simp [readChars] at h
    | cons b bs2 =>
      unfold readChars at h
      split at h
      · rename_i cs2 rest2 hr
        simp only [Option.some.injEq, Prod.mk.injEq] at h
        obtain ⟨-, rfl⟩ := h
        have := ih bs2 cs2 rest2 hr
        simp only [List.length_cons]
        omega
      · exact absurd h (by simp)

theorem receive_string_length {bs : List Nat} {s : String} {rest : List Nat}
    (h : receive_string bs = some (s, rest)) : rest.length + 4 ≤ bs.length := by
  unfold receive_string at h
  split at h
  · rename_i len r1 h1
    split at h
    · rename_i cs r2 h2
      simp only [Option.some.injEq, Prod.mk.injEq] at h
      obtain ⟨-, rfl⟩ := h
      have e1 := readUint32_length h1
      have e2 := readChars_length len r1 cs r2 h2
      omega
    · exact absurd h (by simp)
  · exact absurd h (by simp)

theorem receive_strings_length :
    ∀ (n : Nat) (bs : List Nat) (ss : List String) (rest : List Nat),
      receive_strings n bs = some (ss, rest) → rest.length ≤ bs.length := by
  intro n
  induction n with
  | zero =>
    intro bs ss rest h
    simp only [receive_strings, Option.some.injEq, Prod.mk.injEq] at h
    obtain ⟨-, rfl⟩ := h
    exact Nat.le_refl _
  | succ n ih =>
    intro bs ss rest h
    unfold receive_strings at h
    split at h
    · rename_i s r1 h1
      split at h
      · rename_i ss2 r2 h2
        simp only [Option.some.injEq, Prod.mk.injEq] at h
        obtain ⟨-, rfl⟩ := h
        have e1 := receive_string_length h1
        have e2 := ih r1 ss2 r2 h2
        omega
      · exact absurd h (by simp)
    · exact absurd h (by simp)

theorem receive_symbol_list_length {bs : List Nat} {ss : List String} {rest : List Nat}
    (h : receive_symbol_list bs = some (ss, rest)) : rest.length + 4 ≤ bs.length := by
  unfold receive_symbol_list at h
  split at h
  · rename_i n r1 h1
    have e1 := readUint32_length h1
    have e2 := receive_strings_length n r1 ss rest h
    omega
  · exact absurd h (by simp)

theorem readLoop_fuel_irrelevant :
    ∀ (f1 f2 : Nat) (bs : List Nat) (ib : Inbox),
      bs.length ≤ f1 → bs.length ≤ f2 → readLoop f1 bs ib = readLoop f2 bs ib := by
  intro f1
  induction f1 with
  | zero =>
    intro f2 bs ib h1 _
    obtain rfl : bs = [] := List.length_eq_zero.mp (Nat.le_zero.mp h1)
    rw [readLoop_nil, readLoop_nil]
  | succ f1 ih =>
    intro f2 bs ib h1 h2
    cases f2 with
    | zero =>
      obtain rfl : bs = [] := List.length_eq_zero.mp (Nat.le_zero.mp h2)
      rw [readLoop_nil, readLoop_nil]
    | succ f2 =>
      cases hu : readUint32 bs with
      | none => simp only [readLoop, hu]
      | some p =>
        obtain ⟨tag, rest⟩ := p
        have hlen := readUint32_length hu
        cases ht : tagToMessageType tag with
        | none =>
          simp only [readLoop, hu, ht]
          exact ih f2 rest ib (by omega) (by omega)
        | some mt =>
          cases mt with
          | GetObservedSymbols =>
            simp only [readLoop, hu, ht]
            exact ih f2 rest ib (by omega) (by omega)
          | SetAvailableSymbols =>
            simp only [readLoop, hu, ht]
            exact ih f2 rest ib (by omega) (by omega)
          | PlotBufferRequest =>
            cases hs : receive_string rest with
            | none => simp only [readLoop, hu, ht, hs]
            | some q =>
              obtain ⟨name, rest2⟩ := q
              have hc := receive_string_length hs
              simp only [readLoop, hu, ht, hs]
              exact ih f2 rest2 _ (by omega) (by omega)
          | GetObservedSymbolsResponse =>
            cases hs : receive_symbol_list rest with
            | none => simp only [readLoop, hu, ht, hs]
            | some q =>
              obtain ⟨syms, rest2⟩ := q
              have hc := receive_symbol_list_length hs
              simp only [readLoop, hu, ht, hs]
              exact ih f2 rest2 _ (by omega) (by omega)

theorem readUint32_encodeUint32 (n : Nat) (t : List Nat) (h : n < 4294967296) :
    readUint32 (encodeUint32 n ++ t) = some (n, t) := by
  simp only [encodeUint32, List.cons_append, List.nil_append, readUint32,
    Option.some.injEq, Prod.mk.injEq, and_true]
  omega

theorem readChars_map_toNat :
    ∀ (l : List Char) (t : List Nat),
      readChars l.length (l.map Char.toNat ++ t) = some (l, t) := by
  intro l
  induction l with
  | nil => intro t; rfl
  | cons c l ih =>
    intro t
    simp only [List.length_cons, List.map_cons, List.cons_append, readChars,
      List.append_eq, ih, Char.ofNat_toNat]

theorem receive_string_encodeString (s : String) (t : List Nat)
    (h : s.length < 4294967296) :
    receive_string (encodeString s ++ t) = some (s, t) := by
  have h1 : readUint32 (encodeUint32 s.length ++ (s.data.map Char.toNat ++ t)) =
      some (s.length, s.data.map Char.toNat ++ t) :=
    readUint32_encodeUint32 _ _ h
  have h2 : readChars s.length (s.data.map Char.toNat ++ t) = some (s.data, t) :=
    readChars_map_toNat s.data t
  simp only [encodeString, List.append_assoc, receive_string, h1, h2]

theorem readLoop_step_plot (f : Nat) (name : String) (t : List Nat) (ib : Inbox)
    (h : name.length < 4294967296) :
    readLoop (f + 1) (encodePlotFrame name ++ t) ib =
      readLoop f t
        (ib.store MessageType.PlotBufferRequest (UiMessage.plotBufferRequest name)) := by
  have hu : readUint32 (encodePlotFrame name ++ t) = some (3, encodeString name ++ t) := by
    simp only [encodePlotFrame, List.append_assoc]
    exact readUint32_encodeUint32 3 _ (by omega)
  have ht : tagToMessageType 3 = some MessageType.PlotBufferRequest := rfl
  have hs : receive_string (encodeString name ++ t) = some (name, t) :=
    receive_string_encodeString name t h
  simp only [readLoop, hu, ht, hs]

theorem length_encodePlotFrame (name : String) (t : List Nat) :
    (encodePlotFrame name ++ t).length = t.length + name.length + 8 := by
  simp [encodePlotFrame, encodeString, encodeUint32, MessageType.toTag]
  omega

theorem try_read_plot_frame_step (name : String) (t : List Nat) (ib : Inbox)
    (h : name.length < 4294967296) :
    try_read_incoming_messages (encodePlotFrame name ++ t) ib =
      try_read_incoming_messages t
        (ib.store MessageType.PlotBufferRequest (UiMessage.plotBufferRequest name)) := by
  unfold try_read_incoming_messages
  rw [length_encodePlotFrame]
  rw [show t.length + name.length + 8 = (t.length + name.length + 7) + 1 by omega]
  rw [readLoop_step_plot _ name t ib h]
  exact readLoop_fuel_irrelevant _ _ t _ (by omega) (Nat.le_refl _)

theorem try_read_plot_frames :
    ∀ (names : List String) (ib : Inbox),
      (∀ s ∈ names, s.length < 4294967296) →
      try_read_incoming_messages (names.flatMap encodePlotFrame) ib =
        match names.getLast? with
        | none => ib
        | some l => ib.store MessageType.PlotBufferRequest (UiMessage.plotBufferRequest l) := by
  intro names
  induction names with
  | nil => intro ib _; rfl
  | cons n ns ih =>
    intro ib h
    have hn : n.length < 4294967296 := h n (List.mem_cons_self n ns)
    have hns : ∀ s ∈ ns, s.length < 4294967296 :=
      fun s hs => h s (List.mem_cons_of_mem n hs)
    rw [List.flatMap_cons, try_read_plot_frame_step n _ ib hn, ih _ hns]
    cases ns with
    | nil => rfl
    | cons m ms =>
      cases hl : (m :: ms).getLast? with
      | none => exact absurd (List.getLast?_eq_none_iff.mp hl) (by simp)
      | some l =>
        simp only [List.getLast?_cons_cons, hl, Inbox.store, Inbox.set_set]

theorem drainLoop_store_plot (ib : Inbox) (name : String) :
    drainLoop 2 (ib.store MessageType.PlotBufferRequest (UiMessage.plotBufferRequest name)) =
      (ib.set MessageType.PlotBufferRequest none, [name]) := by
  simp [drainLoop, try_get_stored_message, Inbox.store, Inbox.set, Inbox.get,
    UiMessage.plotNames]

/-- C1 counterexample: two PlotBufferRequest frames ("buf1" then "buf2")
read-and-dispatched before one run_event_loop tick produce exactly one
plot-callback invocation, with "buf2" — not two invocations in FIFO
order as claimed, because the single-slot inbox overwrites the first
request with the second. -/
theorem run_event_loop_overwrite_counterexample :
    (run_event_loop ((["buf1", "buf2"] : List String).flatMap encodePlotFrame) Inbox.empty).2 =
      ["buf2"] ∧
    (["buf2"] : List String) ≠ ["buf1", "buf2"] :=
  ⟨rfl, by decide⟩

/-- C1 amended: given N PlotBufferRequest frames read-and-dispatched
before a single run_event_loop tick, the tick invokes the plot callback
exactly once when N is at least one — with the buffer name of the LAST
frame, earlier requests having been overwritten in the per-kind
single-slot inbox — and zero times when N is zero. -/
theorem run_event_loop_last_plot_only (names : List String)
    (h : ∀ s ∈ names, s.length < 4294967296) :
    (run_event_loop (names.flatMap encodePlotFrame) Inbox.empty).2 =
      names.getLast?.toList := by
  unfold run_event_loop
  rw [try_read_plot_frames names Inbox.empty h]
  cases hl : names.getLast? with
  | none => rfl
  | some l => rw [drainLoop_store_plot]; rfl

/-- C1 amended witness: the amended statement evaluated on the concrete
frame sequence ["a", "b"]. -/
theorem run_event_loop_last_plot_only_witness :
    (∀ s ∈ (["a", "b"] : List String), s.length < 4294967296) ∧
    (run_event_loop ((["a", "b"] : List String).flatMap encodePlotFrame) Inbox.empty).2 =
      (["a", "b"] : List String).getLast?.toList :=
  ⟨by decide, run_event_loop_last_plot_only ["a", "b"] (by decide)⟩

/-- C4 counterexample: an unrecognized kind tag (7) whose frame carries
a payload (the encoded string "ab"), followed by a well-formed
PlotBufferRequest frame for "x".  The pass drops only the four tag
bytes, so the payload bytes are misread as subsequent headers and the
following well-formed frame is never decoded: the inbox ends with no
plot request stored, whereas the same well-formed frame alone decodes
fine. -/
theorem unrecognized_frame_payload_corrupts :
    (try_read_incoming_messages
        (encodeUint32 7 ++ encodeString "ab" ++ encodePlotFrame "x") Inbox.empty).get
      MessageType.PlotBufferRequest = none ∧
    (try_read_incoming_messages (encodePlotFrame "x") Inbox.empty).get
      MessageType.PlotBufferRequest = some (UiMessage.plotBufferRequest "x") :=
  ⟨rfl, rfl⟩

/-- C4 amended: on an unrecognized kind tag the violation is logged and
only the TAG is dropped; the connection is not torn down and the pass
continues with the remaining bytes, so the next well-formed frame is
decoded correctly exactly when the unrecognized frame consists of the
tag alone (no payload bytes).  A payload-bearing unrecognized frame
leaves its payload on the stream, which desynchronizes decoding of what
follows (see the counterexample). -/
theorem unrecognized_tag_drops_tag_only (tag : Nat) (t : List Nat) (ib : Inbox)
    (h : tag < 4294967296)
    (h1 : tagToMessageType tag ≠ some MessageType.PlotBufferRequest)
    (h2 : tagToMessageType tag ≠ some MessageType.GetObservedSymbolsResponse) :
    try_read_incoming_messages (encodeUint32 tag ++ t) ib =
      try_read_incoming_messages t ib := by
  have hu : readUint32 (encodeUint32 tag ++ t) = some (tag, t) :=
    readUint32_encodeUint32 tag t h
  have hlen : (encodeUint32 tag ++ t).length = t.length + 4 := by
    simp only [encodeUint32, List.cons_append, List.nil_append, List.length_cons]
  unfold try_read_incoming_messages
  rw [hlen, show t.length + 4 = (t.length + 3) + 1 by omega]
  cases ht : tagToMessageType tag with
  | none =>
    simp only [readLoop, hu, ht]
    exact readLoop_fuel_irrelevant (t.length + 3) t.length t ib (by omega) (Nat.le_refl _)
  | some mt =>
    cases mt with
    | GetObservedSymbols =>
      simp only [readLoop, hu, ht]
      exact readLoop_fuel_irrelevant (t.length + 3) t.length t ib (by omega) (Nat.le_refl _)
    | SetAvailableSymbols =>
      simp only [readLoop, hu, ht]
      exact readLoop_fuel_irrelevant (t.length + 3) t.length t ib (by omega) (Nat.le_refl _)
    | PlotBufferRequest => exact absurd ht h1
    | GetObservedSymbolsResponse => exact absurd ht h2

/-- C4 amended witness: an unrecognized bare tag (7) directly followed
by a well-formed PlotBufferRequest frame is dropped without corrupting
the decoding of that frame. -/
theorem unrecognized_tag_drops_tag_only_witness :
    ((7 : Nat) < 4294967296 ∧
      tagToMessageType 7 ≠ some MessageType.PlotBufferRequest ∧
      tagToMessageType 7 ≠ some MessageType.GetObservedSymbolsResponse) ∧
    try_read_incoming_messages (encodeUint32 7 ++ encodePlotFrame "x") Inbox.empty =
      try_read_incoming_messages (encodePlotFrame "x") Inbox.empty :=
  ⟨⟨by decide, by decide, by decide⟩,
    unrecognized_tag_drops_tag_only 7 (encodePlotFrame "x") Inbox.empty
      (by decide) (by decide) (by decide)⟩

/-- C2 counterexample: a delivery schedule in which the first wait
window of the single read pass yields no bytes and the peer delivers a
decodable GetObservedSymbolsResponse only afterwards (before closing).
The claim says the call repeats read-and-dispatch until the response is
available and hence returns ["x"]; the code performs at most one pass
and returns the empty sequence, never consulting the later chunk. -/
theorem get_observed_symbols_no_retry_counterexample :
    (get_observed_symbols [[], encodeResponseFrame ["x"]] Inbox.empty).1 = [] ∧
    (try_read_incoming_messages (encodeResponseFrame ["x"]) Inbox.empty).get
      MessageType.GetObservedSymbolsResponse =
      some (UiMessage.getObservedSymbolsResponse ["x"]) :=
  ⟨rfl, rfl⟩

/-- C2 amended: get_observed_symbols sends a GetObservedSymbols request
and then performs AT MOST ONE read-and-dispatch pass (after first
checking the Inbox): it returns the decoded symbol sequence exactly
when a response is already buffered or arrives within that single
pass, and returns the empty sequence otherwise — it does not repeat
the pass, and deliveries after the single pass are never seen. -/
theorem get_observed_symbols_single_pass (chunks : List (List Nat)) (ib : Inbox)
    (syms : List String) :
    ((ib.get MessageType.GetObservedSymbolsResponse =
        some (UiMessage.getObservedSymbolsResponse syms) →
      (get_observed_symbols chunks ib).1 = syms) ∧
     (ib.get MessageType.GetObservedSymbolsResponse = none →
      (try_read_incoming_messages (chunks.headD []) ib).get
          MessageType.GetObservedSymbolsResponse =
        some (UiMessage.getObservedSymbolsResponse syms) →
      (get_observed_symbols chunks ib).1 = syms)) ∧
    (ib.get MessageType.GetObservedSymbolsResponse = none →
     (try_read_incoming_messages (chunks.headD []) ib).get
        MessageType.GetObservedSymbolsResponse = none →
     (get_observed_symbols chunks ib).1 = []) ∧
    ((get_observed_symbols chunks ib).2.2 =
      encodeUint32 MessageType.GetObservedSymbols.toTag) := by
  refine ⟨⟨?_, ?_⟩, ?_, ?_⟩
  · intro h
    simp [get_observed_symbols, fetch_message, try_get_stored_message, h]
  · intro h1 h2
    rw [List.headD_eq_head?_getD] at h2
    simp [get_observed_symbols, fetch_message, try_get_stored_message, h1, h2]
  · intro h1 h2
    rw [List.headD_eq_head?_getD] at h2
    simp [get_observed_symbols, fetch_message, try_get_stored_message, h1, h2]
  · cases hf : fetch_message MessageType.GetObservedSymbolsResponse (chunks.head?.getD []) ib with
    | mk o ib2 =>
      cases o with
      | none => simp [get_observed_symbols, hf]
      | some m => cases m <;> simp [get_observed_symbols, hf]

/-- C2 amended witness: the response delivered within the single pass
is decoded and returned. -/
theorem get_observed_symbols_single_pass_witness :
    (Inbox.empty.get MessageType.GetObservedSymbolsResponse = none ∧
      (try_read_incoming_messages ([encodeResponseFrame ["y"]].headD []) Inbox.empty).get
        MessageType.GetObservedSymbolsResponse =
        some (UiMessage.getObservedSymbolsResponse ["y"])) ∧
    (get_observed_symbols [encodeResponseFrame ["y"]] Inbox.empty).1 = ["y"] :=
  ⟨⟨rfl, rfl⟩,
    (get_observed_symbols_single_pass [encodeResponseFrame ["y"]] Inbox.empty ["y"]).1.2
      rfl rfl⟩

/-- C3: when no GetObservedSymbolsResponse is obtained — nothing
buffered and the single read pass yields none, e.g. because the peer
closed the connection before sending it — get_observed_symbols returns
the empty sequence; the model is a total function, so no error or
exception is possible. -/
theorem get_observed_symbols_degraded_empty (chunks : List (List Nat)) (ib : Inbox)
    (h1 : ib.get MessageType.GetObservedSymbolsResponse = none)
    (h2 : (try_read_incoming_messages (chunks.headD []) ib).get
        MessageType.GetObservedSymbolsResponse = none) :
    (get_observed_symbols chunks ib).1 = [] := by
  rw [List.headD_eq_head?_getD] at h2
  simp [get_observed_symbols, fetch_message, try_get_stored_message, h1, h2]

/-- C3 witness: the peer closes the connection immediately (no chunks
ever arrive); the call returns the empty sequence. -/
theorem get_observed_symbols_degraded_empty_witness :
    (Inbox.empty.get MessageType.GetObservedSymbolsResponse = none ∧
      (try_read_incoming_messages (([] : List (List Nat)).headD []) Inbox.empty).get
        MessageType.GetObservedSymbolsResponse = none) ∧
    (get_observed_symbols [] Inbox.empty).1 = [] :=
  ⟨⟨rfl, rfl⟩, get_observed_symbols_degraded_empty [] Inbox.empty rfl rfl⟩

/-- C7: is_window_ready returns true exactly when a client connection
is established, the companion process has a (nonzero) OS-level
identifier, and the no-op signal probe on that identifier succeeds; in
particular it returns false whenever no client is connected, regardless
of process state. -/
theorem is_window_ready_iff (client : Option Nat) (pid : Nat) (killOk : Nat → Bool) :
    (is_window_ready client pid killOk = true ↔
      (client.isSome = true ∧ pid ≠ 0 ∧ killOk pid = true)) ∧
    (client = none → is_window_ready client pid killOk = false) := by
  constructor
  · simp [is_window_ready, Bool.and_eq_true, bne_iff_ne, and_assoc]
  · intro h
    subst h
    simp [is_window_ready]

/-- C7 witness: with no client connected the probe outcome is
irrelevant and the bridge reports not ready. -/
theorem is_window_ready_iff_witness :
    ((none : Option Nat) = none) ∧
    is_window_ready none 5 (fun _ => true) = false :=
  ⟨rfl, (is_window_ready_iff none 5 (fun _ => true)).2 rfl⟩

/-- C8: start reports fatal setup errors as a boolean result — false
when binding the listening endpoint fails, false when no client
connects within the bounded wait (10000 ms), and true exactly when a
client connection has been established (the client it establishes is
the pending connection taken after the wait). -/
theorem start_reports_boolean_failures (pending : Option Nat) :
    (GiwBridge.start false pending = (false, none)) ∧
    (GiwBridge.start true none = (false, none)) ∧
    ((GiwBridge.start true pending).1 = true ↔ pending.isSome = true) ∧
    ((GiwBridge.start true pending).2 = pending) ∧
    wait_for_client_timeout_ms = 10000 := by
  refine ⟨rfl, rfl, ?_, ?_, rfl⟩
  · simp [GiwBridge.start, wait_for_client]
  · simp [GiwBridge.start, wait_for_client]

theorem drainLoop_fuel_irrelevant (f : Nat) (ib : Inbox) :
    drainLoop (f + 2) ib = drainLoop 2 ib := by
  cases hg : ib.plotBufferRequest with
  | none => simp [drainLoop, try_get_stored_message, Inbox.get, hg]
  | some m => simp [drainLoop, try_get_stored_message, Inbox.get, Inbox.set, hg]
